import Mathlib

/-!
# Verification of the GenAI-Scaffold model-gateway core

A shallow embedding of the plugin registration and dynamic
request-validation/dispatch pipeline of the GenAI-Scaffold repository
(Express + TypeScript), together with proofs of the specification claims
C1..C10.

Embedded source files:
* `packages/api/src/models/factory.ts` (`ModelFactory`)
* `packages/api/src/models/registry.ts` (`SchemaRegistry`)
* `packages/api/src/models/pluginLoader.ts` (`loadPlugins`,
  `loadSinglePlugin`, `validatePluginModule`)
* `packages/api/src/api/middleware/dynamicValidation.ts`
  (`createDynamicValidationMiddleware`, `validateRequestBody`,
  `formatErrorMessage`, `getAllowedValues`)
* `packages/api/src/api/routes/modelRoutes.ts`
  (`createDynamicMulterMiddleware`, `checkSchemaForFileRequirements`)
* `packages/api/src/api/controllers/modelController.ts`
  (`createModelController`)
* `packages/api/src/api/middleware/errorHandler.ts` (`errorHandler`)
* `packages/api/src/core/ApiError.ts` (`ApiError`)

Modelling conventions:
* JavaScript values flowing through the pipeline (request bodies, JSON
  schemas) are modelled by the inductive type `Json`.  Numbers are
  modelled as `Int`: every numeric literal appearing in the embedded
  schemas and claims is an integer, and no arithmetic that could
  overflow or produce fractions occurs in the embedded code.
* JavaScript objects cannot contain duplicate keys, so object values are
  association lists assumed key-unique; property lookup is first-match
  lookup, and keyed dispatch over the entries of an object coincides
  with property access on that object.
* Wall-clock values (`Date.now()`, ISO timestamps) are not modelled:
  the embedded response records omit the `timestamp` strings and carry
  `processingTime := 0`.  No claim mentions them.
* The AJV validator (external npm library, `allErrors: true`,
  `verbose: true`) is modelled for the JSON-Schema keywords exercised by
  the embedded schemas and the claims: `type`, `maximum`, `minimum`,
  `maxLength`, `minLength`, `required` and `properties`.  Error order
  follows AJV's code generation order: `type` first, then the
  validation-vocabulary keywords (numeric limits, length limits,
  `required`), then the `properties` applicator in schema order.
  A missing-required error is reported against the parent instance:
  its `instancePath` is the parent's path (the empty string at the
  root) and its `schemaPath` ends in `/required`.
* The error handler is modelled in production mode
  (`NODE_ENV !== 'development'`): no stack traces, generic errors are
  masked as `Internal Server Error`.
-/

/-- A JavaScript/JSON value. -/
inductive Json where
  | null : Json
  | bool (b : Bool) : Json
  | num (n : Int) : Json
  | str (s : String) : Json
  | arr (elems : List Json) : Json
  | obj (pairs : List (String × Json)) : Json

/-- First-match association-list lookup; models JavaScript property
access `o[k]` / `Map.get(k)` on key-unique maps (`none` = `undefined`). -/
def lookupPairs {α : Type} (k : String) : List (String × α) → Option α
  | [] => none
  | (k', v) :: rest => if k' == k then some v else lookupPairs k rest

/-- Whether a key is present; models the JavaScript `in` operator and
`Map.has`. -/
def hasKey {α : Type} (k : String) (l : List (String × α)) : Bool :=
  (lookupPairs k l).isSome

/-- The keys of an association list in insertion order; models
`Array.from(map.keys())` / `Object.keys`. -/
def keysOf {α : Type} (l : List (String × α)) : List String :=
  l.map Prod.fst

/-- JavaScript truthiness of a value. -/
def jsTruthy : Json → Bool
  | Json.null => false
  | Json.bool b => b
  | Json.num n => n != 0
  | Json.str s => s != ""
  | Json.arr _ => true
  | Json.obj _ => true

/-- JavaScript `typeof` (note `typeof null === 'object'` and
`typeof [] === 'object'`). -/
def jsTypeof : Json → String
  | Json.null => "object"
  | Json.bool _ => "boolean"
  | Json.num _ => "number"
  | Json.str _ => "string"
  | Json.arr _ => "object"
  | Json.obj _ => "object"

/-- Lowercasing used by `key.toLowerCase()` (ASCII identifiers only in
the embedded schemas). -/
def strLower (s : String) : String := ⟨s.data.map Char.toLower⟩

/-- `needle` is a prefix of `hay` (character lists). -/
def listLeads : List Char → List Char → Bool
  | [], _ => true
  | _ :: _, [] => false
  | a :: as, b :: bs => a == b && listLeads as bs

/-- `needle` occurs as a contiguous sublist of `hay`. -/
def listHasSub (needle : List Char) : List Char → Bool
  | [] => needle.isEmpty
  | c :: cs => listLeads needle (c :: cs) || listHasSub needle cs

/-- JavaScript `hay.includes(needle)` on strings. -/
def strIncludes (hay needle : String) : Bool := listHasSub needle.data hay.data

/-! ## SchemaRegistry (`packages/api/src/models/registry.ts`) -/

/-- The `SchemaRegistry`'s private `schemaMap`: insertion-ordered map
from model ID to JSON schema. -/
abbrev SchemaMap := List (String × Json)

/-- `SchemaRegistry.register(modelId, schema)`: throws on a duplicate
`modelId`, throws if the schema is falsy or not of `typeof 'object'`,
otherwise appends the entry (`Map.set` on a fresh key). -/
def schemaRegister (m : SchemaMap) (modelId : String) (schema : Json) :
    Except String SchemaMap :=
  if hasKey modelId m then
    Except.error ("Schema for model ID '" ++ modelId ++ "' is already registered")
  else if !jsTruthy schema || jsTypeof schema != "object" then
    Except.error ("Invalid schema provided for model ID '" ++ modelId ++
      "'. Schema must be a valid JSON Schema object.")
  else
    Except.ok (m ++ [(modelId, schema)])

/-- `SchemaRegistry.getSchema(modelId)`: `Map.get` followed by a
falsiness check (`if (!schema) throw ...`). -/
def getSchemaE (m : SchemaMap) (modelId : String) : Except String Json :=
  match lookupPairs modelId m with
  | some schema =>
    if jsTruthy schema then Except.ok schema
    else Except.error ("Schema for model ID '" ++ modelId ++ "' is not registered")
  | none => Except.error ("Schema for model ID '" ++ modelId ++ "' is not registered")

/-- `SchemaRegistry.hasSchema(modelId)`. -/
def hasSchema (m : SchemaMap) (modelId : String) : Bool := hasKey modelId m

/-- `SchemaRegistry.getRegisteredModels()`. -/
def schemaModels (m : SchemaMap) : List String := keysOf m

/-- The observable effect of one `register` call on the live map: on a
throw the map is left exactly as it was (the exception is raised before
`Map.set`). -/
def schemaRegisterAttempt (m : SchemaMap) (modelId : String) (schema : Json) :
    SchemaMap × Option String :=
  match schemaRegister m modelId schema with
  | Except.ok m' => (m', none)
  | Except.error e => (m, some e)

/-! ## ModelFactory (`packages/api/src/models/factory.ts`)

The factory's `strategyRegistry` maps a model ID to the creator closure
registered by the plugin loader, `() => new ModelStrategy()`.  The
closure is represented by the name of the strategy class it constructs;
`create` runs the closure, i.e. allocates a fresh object on a small
explicit heap (`new` in JavaScript never returns an existing object). -/

/-- A registered strategy class (the `ModelStrategy` export of the
plugin that registered it). -/
structure StrategyClass where
  className : String
deriving DecidableEq

/-- The `ModelFactory`'s private `strategyRegistry`. -/
abbrev FactoryMap := List (String × StrategyClass)

/-- A strategy object: a reference into the heap. -/
structure StrategyInstance where
  addr : Nat
deriving DecidableEq

/-- The JavaScript object heap, as far as strategy instances are
concerned: a fresh-address supply and the mutable state of every
allocated object. -/
structure Heap where
  next : Nat
  state : List (Nat × Json)

/-- `new ModelStrategy()`: allocate a fresh object. -/
def heapNew (h : Heap) : StrategyInstance × Heap :=
  (⟨h.next⟩, ⟨h.next + 1, (h.next, Json.null) :: h.state⟩)

/-- Mutate the state of one object. -/
def heapWrite (h : Heap) (a : Nat) (v : Json) : Heap :=
  ⟨h.next, (a, v) :: h.state⟩

/-- Read the state of one object. -/
def heapRead (h : Heap) (a : Nat) : Option Json :=
  (h.state.find? (fun p => p.1 == a)).map Prod.snd

/-- `ModelFactory.register(modelId, creator)`: throws on a duplicate
`modelId`, otherwise appends. -/
def factoryRegister (f : FactoryMap) (modelId : String) (cls : StrategyClass) :
    Except String FactoryMap :=
  if hasKey modelId f then
    Except.error ("Model strategy with ID '" ++ modelId ++ "' is already registered")
  else
    Except.ok (f ++ [(modelId, cls)])

/-- The observable effect of one `ModelFactory.register` call on the
live map (exception thrown before `Map.set` leaves it untouched). -/
def factoryRegisterAttempt (f : FactoryMap) (modelId : String) (cls : StrategyClass) :
    FactoryMap × Option String :=
  match factoryRegister f modelId cls with
  | Except.ok f' => (f', none)
  | Except.error e => (f, some e)

/-- `ModelFactory.create(modelId)`: looks up the stored creator and
invokes it (`creator()` = `new ModelStrategy()`, a fresh allocation);
throws if the model is not registered. -/
def factoryCreate (f : FactoryMap) (h : Heap) (modelId : String) :
    Except String (StrategyInstance × Heap) :=
  match lookupPairs modelId f with
  | none => Except.error ("Model strategy with ID '" ++ modelId ++ "' is not registered")
  | some _ => Except.ok (heapNew h)

/-- `ModelFactory.isRegistered(modelId)`. -/
def factoryIsRegistered (f : FactoryMap) (modelId : String) : Bool := hasKey modelId f

/-- `ModelFactory.getRegisteredModels()`. -/
def factoryModels (f : FactoryMap) : List String := keysOf f

/-! ## Dynamic multipart gate
(`createDynamicMulterMiddleware` / `checkSchemaForFileRequirements` in
`packages/api/src/api/routes/modelRoutes.ts`) -/

/-- `fileKeywords` from `checkSchemaForFileRequirements`. -/
def fileKeywords : List String := ["file", "files", "upload", "image", "document"]

/-- `fileKeywords.some(keyword => name.toLowerCase().includes(keyword))`. -/
def keywordHit (name : String) : Bool :=
  fileKeywords.any (fun kw => strIncludes (strLower name) kw)

/-- `required` entries, scanned in order: each entry is lowercased and
matched against the keywords; a non-string entry has no `toLowerCase`
method, so the walk throws a `TypeError` at that position (entries
before it can still return `true` first).  The thrown `TypeError` is
the `Except.error` case throughout the walk. -/
def requiredScan : List Json → Except Unit Bool
  | [] => Except.ok false
  | Json.str s :: rest =>
    if keywordHit s then Except.ok true else requiredScan rest
  | _ :: _ => Except.error ()

/-- `obj.required`: the `obj.required && Array.isArray(obj.required)`
guard skips falsy or non-array values without throwing; an array is
scanned in order.  JavaScript objects are key-unique, so scanning the
entries for the key equals property lookup. -/
def requiredPart : List (String × Json) → Except Unit Bool
  | [] => Except.ok false
  | (k, v) :: rest =>
    if k == "required" then
      match v with
      | Json.arr fields => requiredScan fields
      | _ => Except.ok false
    else requiredPart rest

mutual

/-- `checkObject` from `checkSchemaForFileRequirements`: walk one
schema value, returning `ok true` when a file-related name is found,
`ok false` otherwise, and `error` when the walk throws a `TypeError`.
Non-objects (and `null`) yield `false` via the `typeof` guard.  The
keyword sections run in the source's fixed order — `properties`,
`required`, `items`, `anyOf`, `oneOf`, `allOf` — each one only reached
when every earlier section returned `false` without throwing. -/
def checkObject : Json → Except Unit Bool
  | Json.obj kvs =>
    match propsPart kvs with
    | Except.error e => Except.error e
    | Except.ok true => Except.ok true
    | Except.ok false =>
      match requiredPart kvs with
      | Except.error e => Except.error e
      | Except.ok true => Except.ok true
      | Except.ok false =>
        match itemsPart kvs with
        | Except.error e => Except.error e
        | Except.ok true => Except.ok true
        | Except.ok false =>
          match compPart "anyOf" kvs with
          | Except.error e => Except.error e
          | Except.ok true => Except.ok true
          | Except.ok false =>
            match compPart "oneOf" kvs with
            | Except.error e => Except.error e
            | Except.ok true => Except.ok true
            | Except.ok false => compPart "allOf" kvs
  | _ => Except.ok false
termination_by structural j => j

/-- `obj.properties` (truthiness-guarded): an object's property names
are matched against the keywords and its property schemas are walked
recursively; an array value is walked through its elements (its
`Object.keys` are numeric indices, which can never match a keyword).
`Object.keys` of a truthy primitive yields at most numeric-index keys
with one-character string values, so it finds nothing and cannot
throw, like the `ok false` here. -/
def propsPart : List (String × Json) → Except Unit Bool
  | [] => Except.ok false
  | (k, v) :: rest =>
    if k == "properties" then
      match v with
      | Json.obj props => propsWalk props
      | Json.arr es => elemsSome es
      | _ => Except.ok false
    else propsPart rest
termination_by structural l => l

/-- One `properties` map: per key, first the name test (returning
`true` immediately on a hit), then the recursive walk of the property
schema. -/
def propsWalk : List (String × Json) → Except Unit Bool
  | [] => Except.ok false
  | (k, v) :: rest =>
    if keywordHit k then Except.ok true
    else
      match checkObject v with
      | Except.error e => Except.error e
      | Except.ok true => Except.ok true
      | Except.ok false => propsWalk rest
termination_by structural l => l

/-- `arr.some(item => checkObject(item))`: short-circuits on the first
`true`, so a later element's `TypeError` is never reached. -/
def elemsSome : List Json → Except Unit Bool
  | [] => Except.ok false
  | e :: rest =>
    match checkObject e with
    | Except.error er => Except.error er
    | Except.ok true => Except.ok true
    | Except.ok false => elemsSome rest
termination_by structural l => l

/-- `obj.items && checkObject(obj.items)`: truthiness-guarded recursive
walk of the `items` schema. -/
def itemsPart : List (String × Json) → Except Unit Bool
  | [] => Except.ok false
  | (k, v) :: rest =>
    if k == "items" then
      if jsTruthy v then checkObject v else Except.ok false
    else itemsPart rest
termination_by structural l => l

/-- `obj.anyOf && checkArray(obj.anyOf)` (and likewise `oneOf`,
`allOf`): a falsy value is skipped, an array is scanned with
`Array.prototype.some`, and a truthy non-array throws a `TypeError`
(`.some` is not a function). -/
def compPart (key : String) : List (String × Json) → Except Unit Bool
  | [] => Except.ok false
  | (k, v) :: rest =>
    if k == key then
      if jsTruthy v then
        match v with
        | Json.arr es => elemsSome es
        | _ => Except.error ()
      else Except.ok false
    else compPart key rest
termination_by structural l => l

end

/-- `checkSchemaForFileRequirements(schema)`: guard
`!schema || typeof schema !== 'object'`, then the recursive walk.  The
`Except.error` outcome is a thrown `TypeError`, which the caller's
`catch` observes. -/
def checkSchemaForFileRequirements (schema : Json) : Except Unit Bool :=
  if !jsTruthy schema || jsTypeof schema != "object" then Except.ok false
  else checkObject schema

/-- The multer upload configuration built by the gate when a schema has
file requirements. -/
structure MulterConfig where
  memoryStorage : Bool
  fileSizeLimit : Nat
  filesLimit : Nat
  allowedTypes : List String
deriving DecidableEq

/-- The gate's outcome for one request: a no-op pass-through, or
`upload.any()` with the given configuration. -/
inductive MulterGate where
  | passthrough : MulterGate
  | upload (cfg : MulterConfig) : MulterGate
deriving DecidableEq

/-- The MIME allow-list of the gate's `fileFilter`. -/
def allowedMimeTypes : List String :=
  ["image/jpeg", "image/png", "image/gif", "image/webp",
   "text/plain", "application/pdf", "application/json"]

/-- The upload configuration the gate always uses: in-memory storage,
10 MB per file, at most 5 files, the MIME allow-list. -/
def standardUploadConfig : MulterConfig :=
  { memoryStorage := true
    fileSizeLimit := 10 * 1024 * 1024
    filesLimit := 5
    allowedTypes := allowedMimeTypes }

/-- `fileFilter`: accept an allow-listed MIME type, reject any other
with a per-file error at the parsing layer. -/
def multerFileFilter (mimetype : String) : Except String Unit :=
  if allowedMimeTypes.contains mimetype then Except.ok ()
  else Except.error ("File type " ++ mimetype ++ " is not allowed")

/-- `createDynamicMulterMiddleware(modelId)`: look the schema up in the
registry and inspect it; any failure inside the `try` — a missing
schema or a `TypeError` thrown by the walk — is caught and treated as
"no file requirements". -/
def createDynamicMulterMiddleware (registry : SchemaMap) (modelId : String) :
    MulterGate :=
  match getSchemaE registry modelId with
  | Except.error _ => MulterGate.passthrough
  | Except.ok schema =>
    match checkSchemaForFileRequirements schema with
    | Except.error _ => MulterGate.passthrough
    | Except.ok true => MulterGate.upload standardUploadConfig
    | Except.ok false => MulterGate.passthrough

/-! ## AJV validation model
(`createDynamicValidationMiddleware` in
`packages/api/src/api/middleware/dynamicValidation.ts` compiles the
registered schema with AJV, `allErrors: true`, `verbose: true`).

The AJV library is external to the repository; it is modelled here for
the JSON-Schema keywords the embedded schemas and the claims exercise.
An AJV error object's `params` sub-object is flattened into optional
fields (`missingProperty`, `type`, `format`, `limit`, `allowedValues`). -/

/-- One raw AJV validation error (`validate.errors[i]`). -/
structure AjvErrorRec where
  keyword : String
  instancePath : String
  schemaPath : String
  missingProperty : Option String := none
  typeParam : Option String := none
  formatParam : Option String := none
  limit : Option Int := none
  allowedValues : Option (List Json) := none
  data : Json
  message : String

/-- AJV `type` keyword semantics (`object` excludes arrays and `null`;
all embedded numbers are integers, so `integer` behaves like
`number`). -/
def ajvTypeMatches (t : String) (d : Json) : Bool :=
  if t == "object" then match d with | Json.obj _ => true | _ => false
  else if t == "array" then match d with | Json.arr _ => true | _ => false
  else if t == "string" then match d with | Json.str _ => true | _ => false
  else if t == "number" || t == "integer" then match d with | Json.num _ => true | _ => false
  else if t == "boolean" then match d with | Json.bool _ => true | _ => false
  else if t == "null" then match d with | Json.null => true | _ => false
  else false

/-- The non-recursive keyword checks of one schema object, in AJV's
code-generation order: `type` first, then the validation vocabulary
(numeric limits, length limits, `required`).  Each keyword only applies
to data of its own primitive type, whether or not the `type` keyword
already failed (`allErrors: true` does not short-circuit). -/
def ajvScalarErrs (schPath instPath : String) (skvs : List (String × Json))
    (data : Json) : List AjvErrorRec :=
  (match lookupPairs "type" skvs with
    | some (Json.str t) =>
      if ajvTypeMatches t data then []
      else [{ keyword := "type", instancePath := instPath,
              schemaPath := schPath ++ "/type", typeParam := some t,
              data := data, message := "must be " ++ t }]
    | _ => [])
  ++
  (match data, lookupPairs "maximum" skvs with
    | Json.num n, some (Json.num m) =>
      if n ≤ m then []
      else [{ keyword := "maximum", instancePath := instPath,
              schemaPath := schPath ++ "/maximum", limit := some m,
              data := data, message := "must be <= " ++ toString m }]
    | _, _ => [])
  ++
  (match data, lookupPairs "minimum" skvs with
    | Json.num n, some (Json.num m) =>
      if m ≤ n then []
      else [{ keyword := "minimum", instancePath := instPath,
              schemaPath := schPath ++ "/minimum", limit := some m,
              data := data, message := "must be >= " ++ toString m }]
    | _, _ => [])
  ++
  (match data, lookupPairs "maxLength" skvs with
    | Json.str s, some (Json.num m) =>
      if (s.length : Int) ≤ m then []
      else [{ keyword := "maxLength", instancePath := instPath,
              schemaPath := schPath ++ "/maxLength", limit := some m,
              data := data,
              message := "must NOT have more than " ++ toString m ++ " characters" }]
    | _, _ => [])
  ++
  (match data, lookupPairs "minLength" skvs with
    | Json.str s, some (Json.num m) =>
      if m ≤ (s.length : Int) then []
      else [{ keyword := "minLength", instancePath := instPath,
              schemaPath := schPath ++ "/minLength", limit := some m,
              data := data,
              message := "must NOT have fewer than " ++ toString m ++ " characters" }]
    | _, _ => [])
  ++
  (match data, lookupPairs "required" skvs with
    | Json.obj dkvs, some (Json.arr reqs) =>
      reqs.filterMap (fun f =>
        match f with
        | Json.str r =>
          if hasKey r dkvs then none
          else some { keyword := "required", instancePath := instPath,
                      schemaPath := schPath ++ "/required",
                      missingProperty := some r, data := data,
                      message := "must have required property '" ++ r ++ "'" }
        | _ => none)
    | _, _ => [])

mutual

/-- Run the compiled schema against a data value, collecting every
violation: the scalar keyword errors followed by the `properties`
applicator's errors in schema order.  A non-object schema produces no
errors (the registry only accepts `typeof 'object'` schemas, and every
embedded schema is an object). -/
def ajvValidate (schPath instPath : String) (schema data : Json) :
    List AjvErrorRec :=
  match schema with
  | Json.obj skvs =>
    ajvScalarErrs schPath instPath skvs data ++
      ajvApplicators schPath instPath skvs data
  | _ => []
termination_by structural schema

/-- Find the `properties` keyword among the schema's entries (JavaScript
objects are key-unique, so entry iteration equals property lookup). -/
def ajvApplicators (schPath instPath : String) :
    List (String × Json) → Json → List AjvErrorRec
  | [], _ => []
  | (k, v) :: rest, data =>
    (if k == "properties" then
      match v with
      | Json.obj props => ajvProperties schPath instPath props data
      | _ => []
    else [])
    ++ ajvApplicators schPath instPath rest data
termination_by structural l _d => l

/-- Validate each property sub-schema against the matching member of
the data object, when that member is present. -/
def ajvProperties (schPath instPath : String) :
    List (String × Json) → Json → List AjvErrorRec
  | [], _ => []
  | (k, sub) :: rest, data =>
    (match data with
      | Json.obj dkvs =>
        match lookupPairs k dkvs with
        | some dv =>
          ajvValidate (schPath ++ "/properties/" ++ k) (instPath ++ "/" ++ k) sub dv
        | none => []
      | _ => [])
    ++ ajvProperties schPath instPath rest data
termination_by structural l _d => l

end

/-! ## Error formatting
(`validateRequestBody`, `formatErrorMessage`, `getAllowedValues` in
`dynamicValidation.ts`) -/

/-- One formatted violation (`ValidationErrorDetail` in the source). -/
structure ValidationErrorDetail where
  field : String
  message : String
  value : Json
  allowedValues : Option (List Json)

/-- The result of `validateRequestBody`. -/
structure ValidationResult where
  isValid : Bool
  errors : List ValidationErrorDetail

mutual

/-- JavaScript `String(v)` coercion, used by `allowedValues.join`. -/
def jsonToDisplay : Json → String
  | Json.null => "null"
  | Json.bool b => if b then "true" else "false"
  | Json.num n => toString n
  | Json.str s => s
  | Json.arr es => jsonListDisplay es
  | Json.obj _ => "[object Object]"
termination_by structural j => j

/-- `Array.prototype.join(',')` under `String` coercion. -/
def jsonListDisplay : List Json → String
  | [] => ""
  | [e] => jsonToDisplay e
  | e :: rest => jsonToDisplay e ++ "," ++ jsonListDisplay rest
termination_by structural l => l

end

/-- `error.instancePath?.substring(1) || 'root'`, the field name used
inside `formatErrorMessage`. -/
def errorFieldName (e : AjvErrorRec) : String :=
  let s := e.instancePath.drop 1
  if s == "" then "root" else s

/-- `formatErrorMessage(error)`: the keyword-switched human-readable
message. -/
def formatErrorMessage (e : AjvErrorRec) : String :=
  let fieldName := errorFieldName e
  let limStr := match e.limit with | some l => toString l | none => "undefined"
  if e.keyword == "required" then
    "Field '" ++ e.missingProperty.getD "undefined" ++ "' is required"
  else if e.keyword == "type" then
    "Field '" ++ fieldName ++ "' must be of type " ++ e.typeParam.getD "undefined"
  else if e.keyword == "format" then
    "Field '" ++ fieldName ++ "' must be a valid " ++ e.formatParam.getD "undefined"
  else if e.keyword == "minimum" then
    "Field '" ++ fieldName ++ "' must be at least " ++ limStr
  else if e.keyword == "maximum" then
    "Field '" ++ fieldName ++ "' must be at most " ++ limStr
  else if e.keyword == "minLength" then
    "Field '" ++ fieldName ++ "' must be at least " ++ limStr ++ " characters long"
  else if e.keyword == "maxLength" then
    "Field '" ++ fieldName ++ "' must be at most " ++ limStr ++ " characters long"
  else if e.keyword == "pattern" then
    "Field '" ++ fieldName ++ "' does not match the required pattern"
  else if e.keyword == "enum" then
    "Field '" ++ fieldName ++ "' must be one of: " ++
      String.intercalate ", " ((e.allowedValues.getD []).map jsonToDisplay)
  else if e.keyword == "additionalProperties" then
    "Field '" ++ fieldName ++ "' contains additional properties not allowed in schema"
  else if e.keyword == "uniqueItems" then
    "Field '" ++ fieldName ++ "' must contain unique items"
  else if e.message != "" then e.message
  else "Validation failed for field '" ++ fieldName ++ "'"

/-- `getAllowedValues(error)`. -/
def getAllowedValues (e : AjvErrorRec) : Option (List Json) :=
  if e.keyword == "enum" then e.allowedValues else none

/-- `validateRequestBody(body, schema, ajv)`: compile and run the
schema, then format every raw AJV error.  The field path falls back to
the error's `schemaPath` when `instancePath` is the empty string
(JavaScript falsiness), which is the case for every root-level error,
including missing-required errors. -/
def validateRequestBody (body schema : Json) : ValidationResult :=
  let errs := ajvValidate "#" "" schema body
  if errs.isEmpty then { isValid := true, errors := [] }
  else
    { isValid := false
      errors := errs.map (fun e =>
        let field := if e.instancePath != "" then e.instancePath.drop 1 else e.schemaPath
        { field := if field != "" then field else "root"
          message := formatErrorMessage e
          value := e.data
          allowedValues := getAllowedValues e }) }

/-! ## ApiError (`packages/api/src/core/ApiError.ts`) and the thrown
error values reaching the error handler -/

/-- An `ApiError` instance (`name` is always `'ApiError'`; the
`timestamp` string is not modelled). -/
structure ApiError where
  statusCode : Nat
  message : String
  isOperational : Bool := true
deriving DecidableEq

/-- `ApiError.badRequest`. -/
def apiBadRequest (message : String) : ApiError := ⟨400, message, true⟩

/-- `ApiError.unauthorized`. -/
def apiUnauthorized (message : String) : ApiError := ⟨401, message, true⟩

/-- `ApiError.forbidden`. -/
def apiForbidden (message : String) : ApiError := ⟨403, message, true⟩

/-- `ApiError.notFound`. -/
def apiNotFound (message : String) : ApiError := ⟨404, message, true⟩

/-- An error value reaching `errorHandler`, classified the way its
`instanceof` / `err.name` chain does. -/
inductive ThrownError where
  | api (e : ApiError) : ThrownError
  | validationNamed (message : String) : ThrownError
  | syntaxBody (message : String) : ThrownError
  | multerErr (message : String) : ThrownError
  | generic (message : String) : ThrownError

/-! ## HTTP request and response values -/

/-- `req.user`, installed by the API-key authentication middleware. -/
structure AuthUser where
  apiKeyId : Option String
  permissions : List String
  authenticated : Bool

/-- One uploaded file as multer describes it. -/
structure FileUpload where
  fieldname : String
  originalname : String
  encoding : String
  mimetype : String
  size : Nat
  buffer : List Nat
  path : Option String

/-- `req.files`: either multer's flat array or its field-name grouping. -/
inductive FilesUpload where
  | arrFiles (files : List FileUpload) : FilesUpload
  | mapFiles (groups : List (String × List FileUpload)) : FilesUpload

/-- The parts of an Express request the embedded pipeline reads. -/
structure HttpRequest where
  modelId : Option String
  body : Json
  user : Option AuthUser
  file : Option FileUpload
  files : Option FilesUpload
  path : String
  method : String

/-- The `error` object of an error response (`timestamp` and the
development-mode `stack` are not modelled). -/
structure ErrorInfo where
  name : String
  message : String
  statusCode : Nat
  path : String
  method : String
  details : Option (List ValidationErrorDetail) := none

/-- A strategy's resolved output `{ result, metadata? }`. -/
structure ModelOutput where
  result : Json
  metadata : Option Json := none

/-- The success-envelope metadata `{ modelId, processingTime }`
(`processingTime` is a wall-clock difference, modelled as `0`). -/
structure ResponseMeta where
  modelId : String
  processingTime : Nat

/-- The JSON body (plus status) the gateway sends for one invocation.
`success`/`data`/`metadata` are absent (`none`) on every error path,
and `error` is absent on the success path. -/
structure HttpResponse where
  status : Nat
  success : Option Bool
  data : Option ModelOutput
  metadata : Option ResponseMeta
  error : Option ErrorInfo

/-- `errorHandler` (`packages/api/src/api/middleware/errorHandler.ts`)
in production mode: `ApiError` instances keep their status and message;
`err.name === 'ValidationError'` maps to 422; JSON `SyntaxError` and
`MulterError` map to 400; anything else becomes a masked 500. -/
def errorHandler (req : HttpRequest) (err : ThrownError) : HttpResponse :=
  match err with
  | ThrownError.api e =>
    { status := e.statusCode, success := none, data := none, metadata := none,
      error := some { name := "ApiError", message := e.message,
                      statusCode := e.statusCode, path := req.path,
                      method := req.method } }
  | ThrownError.validationNamed msg =>
    { status := 422, success := none, data := none, metadata := none,
      error := some { name := "ValidationError", message := msg,
                      statusCode := 422, path := req.path, method := req.method } }
  | ThrownError.syntaxBody _ =>
    { status := 400, success := none, data := none, metadata := none,
      error := some { name := "SyntaxError", message := "Invalid JSON in request body",
                      statusCode := 400, path := req.path, method := req.method } }
  | ThrownError.multerErr msg =>
    { status := 400, success := none, data := none, metadata := none,
      error := some { name := "MulterError", message := msg,
                      statusCode := 400, path := req.path, method := req.method } }
  | ThrownError.generic _ =>
    { status := 500, success := none, data := none, metadata := none,
      error := some { name := "InternalServerError", message := "Internal Server Error",
                      statusCode := 500, path := req.path, method := req.method } }

/-! ## Invocation controller
(`createModelController` in
`packages/api/src/api/controllers/modelController.ts`) -/

/-- JavaScript object spread `{...req.body}` (spreading a non-object
produces no enumerable own string-keyed entries for the JSON values at
hand). -/
def spreadJson : Json → List (String × Json)
  | Json.obj kvs => kvs
  | _ => []

/-- JavaScript property assignment `o[k] = v`: replace in place when the
key exists, append otherwise. -/
def setPair {α : Type} (l : List (String × α)) (k : String) (v : α) :
    List (String × α) :=
  if hasKey k l then l.map (fun p => if p.1 == k then (k, v) else p)
  else l ++ [(k, v)]

/-- The file descriptor the controller copies out of `req.file` (a
`path` of `none` models multer memory storage leaving `file.path`
undefined). -/
def fileToJson (f : FileUpload) : Json :=
  Json.obj [("fieldname", Json.str f.fieldname),
            ("originalname", Json.str f.originalname),
            ("encoding", Json.str f.encoding),
            ("mimetype", Json.str f.mimetype),
            ("size", Json.num (f.size : Int)),
            ("buffer", Json.arr (f.buffer.map (fun b => Json.num (b : Int)))),
            ("path", match f.path with | some p => Json.str p | none => Json.null)]

/-- `requestData`: the validated body merged with the normalized file
descriptors (`file` for a single upload, `files` for the array or the
field-name grouping). -/
def buildRequestData (req : HttpRequest) : Json :=
  let base := spreadJson req.body
  let withFile :=
    match req.file with
    | some f => setPair base "file" (fileToJson f)
    | none => base
  let withFiles :=
    match req.files with
    | some (FilesUpload.arrFiles fs) =>
      setPair withFile "files" (Json.arr (fs.map fileToJson))
    | some (FilesUpload.mapFiles groups) =>
      setPair withFile "files"
        (Json.obj (groups.map (fun g => (g.1, Json.arr (g.2.map fileToJson)))))
    | none => withFile
  Json.obj withFiles

/-- The per-invocation strategy context `{ apiKey?, userId? }`. -/
structure ProcessContext where
  apiKey : Option String
  userId : Option String

/-- The context the controller passes to `strategy.process`:
`{ apiKey: req.user?.apiKeyId, userId: req.user?.apiKeyId }` (the API
key ID doubles as the user identifier). -/
def buildProcessContext (req : HttpRequest) : ProcessContext :=
  { apiKey := req.user.bind AuthUser.apiKeyId
    userId := req.user.bind AuthUser.apiKeyId }

/-- The `POST /models/:modelId/invoke` pipeline after multipart parsing:
the dynamic validation middleware, then the controller, with every
thrown error landing in `errorHandler`.  The created strategy's
`process(requestData, context)` is the external collaborator `run`
(its internals are out of scope); a rejected promise is a thrown
error. -/
def handleInvoke (registry : SchemaMap) (factory : FactoryMap)
    (req : HttpRequest)
    (run : Json → ProcessContext → Except ThrownError ModelOutput) :
    HttpResponse :=
  match req.modelId with
  | none =>
    errorHandler req (ThrownError.api
      (apiBadRequest "Model ID is required in request parameters"))
  | some modelId =>
    match getSchemaE registry modelId with
    | Except.error _ =>
      errorHandler req (ThrownError.api
        (apiNotFound ("No validation schema found for model: " ++ modelId)))
    | Except.ok configSchema =>
      if (validateRequestBody req.body configSchema).isValid then
        if factoryIsRegistered factory modelId then
          match run (buildRequestData req) (buildProcessContext req) with
          | Except.ok result =>
            { status := 200, success := some true, data := some result,
              metadata := some { modelId := modelId, processingTime := 0 },
              error := none }
          | Except.error e => errorHandler req e
        else
          errorHandler req (ThrownError.api
            (apiNotFound ("Model '" ++ modelId ++ "' is not available")))
      else
        { status := 400, success := none, data := none, metadata := none,
          error := some { name := "ValidationError",
                          message := "Request body validation failed",
                          statusCode := 400, path := req.path,
                          method := req.method,
                          details := some (validateRequestBody req.body configSchema).errors } }

/-! ## Plugin loader (`packages/api/src/models/pluginLoader.ts`)

Filesystem discovery and `import()` are I/O and are outside the
embedding: a plugin candidate is the directory name together with the
exports of its (already loaded) entry module.  `loadPlugins` settles the
candidates one after another and never lets one candidate's failure
abort the others (`Promise.allSettled` over per-candidate `catch`
blocks); the registration order is the candidate order. -/

/-- One export of a plugin module: a data value or a function
(constructor). -/
inductive JsExport where
  | val (j : Json) : JsExport
  | func (name : String) : JsExport

/-- `typeof module.x`, with `"undefined"` for a missing export. -/
def exportTypeof : Option JsExport → String
  | none => "undefined"
  | some (JsExport.val j) => jsTypeof j
  | some (JsExport.func _) => "function"

/-- Whether a value is `null`. -/
def isNullJson : Json → Bool
  | Json.null => true
  | _ => false

/-- A candidate plugin module (its exports object). -/
structure PluginCandidate where
  exports : List (String × JsExport)

/-- `requiredExports` in `validatePluginModule`. -/
def requiredExports : List String := ["modelId", "configSchema", "ModelStrategy"]

/-- `validatePluginModule(module, pluginDir)`: first the presence check
naming every missing export, then the three type checks in order;
returns the extracted `(modelId, configSchema, ModelStrategy)`. -/
def validatePluginModule (m : PluginCandidate) (pluginDir : String) :
    Except String (String × Json × String) :=
  match requiredExports.filter (fun e => !hasKey e m.exports) with
  | missing :: rest =>
    Except.error ("Plugin '" ++ pluginDir ++ "' is missing required exports: " ++
      String.intercalate ", " (missing :: rest) ++
      ". Required exports: modelId (string), configSchema (object), ModelStrategy (constructor function)")
  | [] =>
    match lookupPairs "modelId" m.exports with
    | some (JsExport.val (Json.str modelId)) =>
      (match lookupPairs "configSchema" m.exports with
        | some (JsExport.val schema) =>
          if jsTypeof schema == "object" && !isNullJson schema then
            match lookupPairs "ModelStrategy" m.exports with
            | some (JsExport.func clsName) => Except.ok (modelId, schema, clsName)
            | other =>
              Except.error ("Plugin '" ++ pluginDir ++
                "': ModelStrategy must be a constructor function, got " ++
                exportTypeof other)
          else
            Except.error ("Plugin '" ++ pluginDir ++
              "': configSchema must be an object, got " ++ jsTypeof schema)
        | other =>
          Except.error ("Plugin '" ++ pluginDir ++
            "': configSchema must be an object, got " ++ exportTypeof other))
    | other =>
      Except.error ("Plugin '" ++ pluginDir ++ "': modelId must be a string, got " ++
        exportTypeof other)

/-- The two registration maps the loader writes into. -/
structure GatewayState where
  factory : FactoryMap
  registry : SchemaMap

/-- The state before any plugin is loaded. -/
def emptyGateway : GatewayState := { factory := [], registry := [] }

/-- `loadSinglePlugin` with its surrounding per-plugin `catch`: validate
the module, register the strategy constructor in the factory, then the
schema in the registry.  A throw is caught and reported as this
plugin's failure; whatever was registered before the throw stays
registered (the factory write is not rolled back when the registry
write fails). -/
def loadOnePlugin (st : GatewayState) (pluginDir : String) (m : PluginCandidate) :
    GatewayState × (String × Option String) :=
  match validatePluginModule m pluginDir with
  | Except.error msg => (st, (pluginDir, some msg))
  | Except.ok (modelId, configSchema, clsName) =>
    match factoryRegister st.factory modelId ⟨clsName⟩ with
    | Except.error msg => (st, (pluginDir, some msg))
    | Except.ok f' =>
      match schemaRegister st.registry modelId configSchema with
      | Except.error msg => ({ st with factory := f' }, (pluginDir, some msg))
      | Except.ok r' => ({ factory := f', registry := r' }, (pluginDir, none))

/-- `loadPlugins`: settle every candidate, collecting each one's
outcome. -/
def loadPlugins (st : GatewayState) :
    List (String × PluginCandidate) → GatewayState × List (String × Option String)
  | [] => (st, [])
  | (dir, m) :: rest =>
    let step := loadOnePlugin st dir m
    let restRun := loadPlugins step.1 rest
    (restRun.1, step.2 :: restRun.2)

/-! ## Concrete fixtures for the claims -/

/-- The claim-P4 schema: fields `a` (string) and `b` (number, minimum
1), both required. -/
def c2Schema : Json :=
  Json.obj [("type", Json.str "object"),
            ("required", Json.arr [Json.str "a", Json.str "b"]),
            ("properties", Json.obj
              [("a", Json.obj [("type", Json.str "string")]),
               ("b", Json.obj [("type", Json.str "number"),
                               ("minimum", Json.num 1)])])]

/-- The claim-P4 body `{a: 5}`. -/
def c2Body : Json := Json.obj [("a", Json.num 5)]

/-- The spec's `echo` scenario schema:
`{type: 'object', required: ['text'], properties: {text: {type: 'string', minLength: 1}}}`. -/
def echoSchema : Json :=
  Json.obj [("type", Json.str "object"),
            ("required", Json.arr [Json.str "text"]),
            ("properties", Json.obj
              [("text", Json.obj [("type", Json.str "string"),
                                  ("minLength", Json.num 1)])])]

/-- A registry holding exactly the `echo` schema, built through
`register`. -/
def echoRegistry : SchemaMap := (schemaRegisterAttempt [] "echo" echoSchema).1

/-- A factory holding exactly the `echo` strategy, built through
`register`. -/
def echoFactory : FactoryMap :=
  (factoryRegisterAttempt [] "echo" ⟨"EchoStrategy"⟩).1

/-- The `echo` strategy's `process`: returns
`{result: {echoed: input.text}}`. -/
def echoRun (input : Json) (_ctx : ProcessContext) :
    Except ThrownError ModelOutput :=
  match input with
  | Json.obj kvs =>
    Except.ok { result := Json.obj [("echoed", (lookupPairs "text" kvs).getD Json.null)] }
  | _ => Except.ok { result := Json.obj [("echoed", Json.null)] }

/-- Invoking `echo` with the empty body `{}`. -/
def c3Request : HttpRequest :=
  { modelId := some "echo", body := Json.obj [],
    user := some { apiKeyId := some "API_KEY_1", permissions := ["read"],
                   authenticated := true },
    file := none, files := none,
    path := "/api/models/echo/invoke", method := "POST" }

/-- The pipeline's response to the `echo`-with-`{}` invocation. -/
def c3Response : HttpResponse :=
  handleInvoke echoRegistry echoFactory c3Request echoRun

/-- The violation fields of a response, when it carries violation
details. -/
def responseDetailFields (r : HttpResponse) : Option (List String) :=
  (r.error.bind ErrorInfo.details).map (List.map ValidationErrorDetail.field)

/-- A schema with a required property named `imageFile`. -/
def imageFileSchema : Json :=
  Json.obj [("type", Json.str "object"),
            ("required", Json.arr [Json.str "imageFile"]),
            ("properties", Json.obj
              [("imageFile", Json.obj [("type", Json.str "string")])])]

/-- A schema with only `prompt: string`. -/
def promptOnlySchema : Json :=
  Json.obj [("type", Json.str "object"),
            ("properties", Json.obj
              [("prompt", Json.obj [("type", Json.str "string")])])]

/-- A registry holding the `imageFile` schema under model `img`. -/
def c4Registry : SchemaMap := [("img", imageFileSchema)]

/-- A registrable schema whose walk throws: the `required` scan reaches
the non-string entry `42` before any file token. -/
def typeErrorSchema : Json :=
  Json.obj [("required", Json.arr [Json.num 42, Json.str "imageFile"])]

/-- A registrable schema whose `required` scan finds `imageFile` before
reaching the non-string entry `42`, so it returns `true` without
throwing. -/
def requiredOrderSchema : Json :=
  Json.obj [("required", Json.arr [Json.str "imageFile", Json.num 42])]

/-- A registry holding the throwing schema under model `bad`. -/
def typeErrorRegistry : SchemaMap := [("bad", typeErrorSchema)]

/-- A registry holding the `prompt`-only schema under model `txt`. -/
def promptRegistry : SchemaMap := [("txt", promptOnlySchema)]

/-- A factory with `echo` registered (duplicate-registration fixture). -/
def c5Factory : FactoryMap := [("echo", ⟨"EchoStrategy"⟩)]

/-- A registry with `echo` registered (duplicate-registration
fixture). -/
def c5Registry : SchemaMap := [("echo", echoSchema)]

/-- A well-formed plugin exporting the `echo` model. -/
def echoPlugin : PluginCandidate :=
  { exports := [("modelId", JsExport.val (Json.str "echo")),
                ("configSchema", JsExport.val echoSchema),
                ("ModelStrategy", JsExport.func "EchoStrategy")] }

/-- A well-formed plugin exporting an `ocr` model. -/
def ocrPlugin : PluginCandidate :=
  { exports := [("modelId", JsExport.val (Json.str "ocr")),
                ("configSchema", JsExport.val imageFileSchema),
                ("ModelStrategy", JsExport.func "OcrStrategy")] }

/-- A plugin candidate missing the required `ModelStrategy` export. -/
def brokenPlugin : PluginCandidate :=
  { exports := [("modelId", JsExport.val (Json.str "broken")),
                ("configSchema", JsExport.val (Json.obj []))] }

/-- The loader failure message for `brokenPlugin`. -/
def brokenPluginMsg : String :=
  "Plugin 'broken-plugin' is missing required exports: ModelStrategy. " ++
    "Required exports: modelId (string), configSchema (object), " ++
    "ModelStrategy (constructor function)"

/-- The three-candidate loader run of claim P3: one broken plugin
between two valid ones. -/
def c6Run : GatewayState × List (String × Option String) :=
  loadPlugins emptyGateway
    [("echo-plugin", echoPlugin), ("broken-plugin", brokenPlugin),
     ("ocr-plugin", ocrPlugin)]

/-- An empty heap. -/
def emptyHeap : Heap := { next := 0, state := [] }

/-- A request for a model that exists in neither map. -/
def ghostRequest : HttpRequest :=
  { modelId := some "ghost", body := Json.obj [("text", Json.str "hi")],
    user := some { apiKeyId := some "API_KEY_1", permissions := ["read"],
                   authenticated := true },
    file := none, files := none,
    path := "/api/models/ghost/invoke", method := "POST" }

/-! ## Helper lemmas -/

/-- Key presence only depends on the key list. -/
theorem hasKey_from_keys {α : Type} (k : String) (l : List (String × α)) :
    hasKey k l = (keysOf l).any (fun k' => k' == k) := by
  induction l with
  | nil => rfl
  | cons p rest ih =>
    cases p with
    | mk k' v =>
      by_cases h : k' = k
      · subst h
        simp [hasKey, lookupPairs, keysOf]
      · have hb : (k' == k) = false := beq_eq_false_iff_ne.mpr h
        unfold hasKey at ih
        simp [hasKey, lookupPairs, keysOf, hb, ih]

/-- Two maps with the same keys agree on key presence. -/
theorem hasKey_eq_of_keys_eq {α β : Type} {l₁ : List (String × α)}
    {l₂ : List (String × β)} (h : keysOf l₁ = keysOf l₂) (k : String) :
    hasKey k l₁ = hasKey k l₂ := by
  rw [hasKey_from_keys, hasKey_from_keys, h]

/-- An absent schema makes `getSchema` throw its not-registered error. -/
theorem getSchemaE_of_not_hasSchema {m : SchemaMap} {modelId : String}
    (h : hasSchema m modelId = false) :
    getSchemaE m modelId =
      Except.error ("Schema for model ID '" ++ modelId ++ "' is not registered") := by
  unfold hasSchema hasKey at h
  unfold getSchemaE
  cases hl : lookupPairs modelId m with
  | none => rfl
  | some s => rw [hl] at h; simp at h

/-- A non-null value of `typeof 'object'` is truthy. -/
theorem jsTruthy_of_object {s : Json} (h1 : jsTypeof s = "object")
    (h2 : isNullJson s = false) : jsTruthy s = true := by
  cases s <;> simp_all [jsTypeof, isNullJson, jsTruthy]

/-- A successfully validated plugin module carries a schema that the
registry's structural check accepts. -/
theorem validate_ok_schema_shape {m : PluginCandidate} {dir modelId clsName : String}
    {schema : Json}
    (h : validatePluginModule m dir = Except.ok (modelId, schema, clsName)) :
    jsTypeof schema = "object" ∧ jsTruthy schema = true := by
  unfold validatePluginModule at h
  repeat' split at h
  all_goals cases h
  constructor
  · simp_all
  · apply jsTruthy_of_object <;> simp_all

/-- Appending one entry appends its key. -/
theorem keysOf_append {α : Type} (l : List (String × α)) (k : String) (v : α) :
    keysOf (l ++ [(k, v)]) = keysOf l ++ [k] := by
  simp [keysOf]

/-! ## Claim theorems -/

/-- C1: for every model invocation handled by the pipeline, the response
has `success = true` if and only if it carries a `data` payload and no
`error`: success envelopes are `{success: true, data, metadata}` and
every failure path produces an error envelope with no `success` and no
`data`. -/
theorem c1_success_envelope_iff (registry : SchemaMap) (factory : FactoryMap)
    (req : HttpRequest)
    (run : Json → ProcessContext → Except ThrownError ModelOutput) :
    ((handleInvoke registry factory req run).success = some true) ↔
    ((handleInvoke registry factory req run).data.isSome = true ∧
      (handleInvoke registry factory req run).error = none) := by
  unfold handleInvoke
  repeat' split
  all_goals try simp [errorHandler]
  all_goals (rename_i e h; cases e <;> simp [errorHandler])

/-- C2: for the schema requiring `a` (string) and `b` (number, minimum
1) and the body `{a: 5}`, validation does not stop at the first
violation: it returns exactly two violations, the missing-required one
naming `b` and the type mismatch on `a` (in AJV's order, `required`
before `properties`). -/
theorem c2_validation_collects_all_violations :
    validateRequestBody c2Body c2Schema =
      { isValid := false
        errors := [
          { field := "#/required", message := "Field 'b' is required",
            value := c2Body, allowedValues := none },
          { field := "a", message := "Field 'a' must be of type string",
            value := Json.num 5, allowedValues := none }] } ∧
    (validateRequestBody c2Body c2Schema).errors.length = 2 := by
  constructor
  · rfl
  · rfl

/-- C3 counterexample: invoking `echo` with body `{}` yields one
violation detail, but its `field` is the schema path `#/required`, not
`'text'` as the claim states: AJV reports a root-level missing-required
error with an empty (falsy) `instancePath`, so `validateRequestBody`
falls back to the error's `schemaPath`. -/
theorem c3_counterexample_field_is_schema_path :
    responseDetailFields c3Response = some ["#/required"] ∧
    ("#/required" : String) ≠ "text" := by
  constructor
  · rfl
  · decide

/-- C3 amended: invoking `echo` with body `{}` yields a 400 response
containing exactly one violation detail, whose message is
`Field 'text' is required` and whose `field` is `#/required` (the
schema-path fallback for a root-level missing-required error). -/
theorem c3_single_required_violation :
    c3Response.status = 400 ∧
    c3Response.error.bind ErrorInfo.details =
      some [{ field := "#/required", message := "Field 'text' is required",
              value := Json.obj [], allowedValues := none }] ∧
    c3Response.success = none ∧ c3Response.data = none := by
  refine ⟨rfl, rfl, rfl, rfl⟩

/-- C10: the process context the controller passes to
`strategy.process` carries the authenticated caller's API-key
identifier in both fields: `userId` always equals `apiKey`, and both
are `req.user?.apiKeyId` (hence both absent when there is no
API-key identifier). -/
theorem c10_context_userid_equals_apikey (req : HttpRequest) :
    (buildProcessContext req).userId = (buildProcessContext req).apiKey ∧
    (buildProcessContext req).apiKey = req.user.bind AuthUser.apiKeyId := by
  exact ⟨rfl, rfl⟩

/-- C4: for every registered model, the multipart gate configures
in-memory upload handling (10 MB per file, 5 files, MIME allow-list
with per-file rejection) exactly when the recursive schema walk finds a
file-related token among property or required-field names (a walk that
throws a `TypeError` is caught and passes through, like one that finds
nothing); a required `imageFile` property triggers it, a plain
`prompt: string` schema does not. -/
theorem c4_multipart_gate_iff_file_tokens (registry : SchemaMap)
    (modelId : String) (schema : Json)
    (hs : getSchemaE registry modelId = Except.ok schema) :
    (createDynamicMulterMiddleware registry modelId =
        MulterGate.upload standardUploadConfig ↔
      checkSchemaForFileRequirements schema = Except.ok true) ∧
    (createDynamicMulterMiddleware registry modelId = MulterGate.passthrough ↔
      checkSchemaForFileRequirements schema ≠ Except.ok true) ∧
    checkSchemaForFileRequirements imageFileSchema = Except.ok true ∧
    checkSchemaForFileRequirements promptOnlySchema = Except.ok false ∧
    createDynamicMulterMiddleware c4Registry "img" =
      MulterGate.upload standardUploadConfig ∧
    createDynamicMulterMiddleware promptRegistry "txt" = MulterGate.passthrough ∧
    checkSchemaForFileRequirements typeErrorSchema = Except.error () ∧
    createDynamicMulterMiddleware typeErrorRegistry "bad" =
      MulterGate.passthrough ∧
    checkSchemaForFileRequirements requiredOrderSchema = Except.ok true ∧
    standardUploadConfig.memoryStorage = true ∧
    standardUploadConfig.fileSizeLimit = 10 * 1024 * 1024 ∧
    standardUploadConfig.filesLimit = 5 ∧
    multerFileFilter "video/mp4" =
      Except.error "File type video/mp4 is not allowed" ∧
    multerFileFilter "image/png" = Except.ok () := by
  refine ⟨?_, ?_, by rfl, by rfl, by rfl, by rfl, by rfl, by rfl, by rfl,
    by decide, by decide, by decide, by rfl, by rfl⟩
  · unfold createDynamicMulterMiddleware
    rw [hs]
    rcases hc : checkSchemaForFileRequirements schema with e | b
    · simp [hc]
    · cases b <;> simp [hc]
  · unfold createDynamicMulterMiddleware
    rw [hs]
    rcases hc : checkSchemaForFileRequirements schema with e | b
    · simp [hc]
    · cases b <;> simp [hc]

/-- C4 witness: the gate theorem instantiated at a one-model registry
holding the `imageFile` schema. -/
theorem c4_witness :
    (getSchemaE c4Registry "img" = Except.ok imageFileSchema) ∧
    ((createDynamicMulterMiddleware c4Registry "img" =
        MulterGate.upload standardUploadConfig ↔
      checkSchemaForFileRequirements imageFileSchema = Except.ok true) ∧
    (createDynamicMulterMiddleware c4Registry "img" = MulterGate.passthrough ↔
      checkSchemaForFileRequirements imageFileSchema ≠ Except.ok true) ∧
    checkSchemaForFileRequirements imageFileSchema = Except.ok true ∧
    checkSchemaForFileRequirements promptOnlySchema = Except.ok false ∧
    createDynamicMulterMiddleware c4Registry "img" =
      MulterGate.upload standardUploadConfig ∧
    createDynamicMulterMiddleware promptRegistry "txt" = MulterGate.passthrough ∧
    checkSchemaForFileRequirements typeErrorSchema = Except.error () ∧
    createDynamicMulterMiddleware typeErrorRegistry "bad" =
      MulterGate.passthrough ∧
    checkSchemaForFileRequirements requiredOrderSchema = Except.ok true ∧
    standardUploadConfig.memoryStorage = true ∧
    standardUploadConfig.fileSizeLimit = 10 * 1024 * 1024 ∧
    standardUploadConfig.filesLimit = 5 ∧
    multerFileFilter "video/mp4" =
      Except.error "File type video/mp4 is not allowed" ∧
    multerFileFilter "image/png" = Except.ok ()) :=
  ⟨rfl, c4_multipart_gate_iff_file_tokens c4Registry "img" imageFileSchema rfl⟩

/-- C5: a second registration under an already-registered model ID
fails — in the factory with the duplicate-strategy error, in the
registry with the duplicate-schema error — and leaves each map, its
listing, and the first registration untouched. -/
theorem c5_duplicate_registration_rejected (f : FactoryMap) (r : SchemaMap)
    (modelId : String) (cls : StrategyClass) (schema : Json)
    (hf : factoryIsRegistered f modelId = true)
    (hr : hasSchema r modelId = true) :
    (factoryRegisterAttempt f modelId cls).2 =
        some ("Model strategy with ID '" ++ modelId ++ "' is already registered") ∧
    (factoryRegisterAttempt f modelId cls).1 = f ∧
    factoryModels (factoryRegisterAttempt f modelId cls).1 = factoryModels f ∧
    lookupPairs modelId (factoryRegisterAttempt f modelId cls).1 =
      lookupPairs modelId f ∧
    (schemaRegisterAttempt r modelId schema).2 =
        some ("Schema for model ID '" ++ modelId ++ "' is already registered") ∧
    (schemaRegisterAttempt r modelId schema).1 = r ∧
    schemaModels (schemaRegisterAttempt r modelId schema).1 = schemaModels r ∧
    lookupPairs modelId (schemaRegisterAttempt r modelId schema).1 =
      lookupPairs modelId r := by
  unfold factoryIsRegistered at hf
  unfold hasSchema at hr
  unfold factoryRegisterAttempt factoryRegister schemaRegisterAttempt schemaRegister
  simp [hf, hr]

/-- C5 witness: duplicate registration of `echo` against the one-entry
factory and registry. -/
theorem c5_witness :
    factoryIsRegistered c5Factory "echo" = true ∧
    hasSchema c5Registry "echo" = true ∧
    ((factoryRegisterAttempt c5Factory "echo" ⟨"OtherStrategy"⟩).2 =
        some "Model strategy with ID 'echo' is already registered" ∧
    (factoryRegisterAttempt c5Factory "echo" ⟨"OtherStrategy"⟩).1 = c5Factory ∧
    factoryModels (factoryRegisterAttempt c5Factory "echo" ⟨"OtherStrategy"⟩).1 =
      factoryModels c5Factory ∧
    lookupPairs "echo" (factoryRegisterAttempt c5Factory "echo" ⟨"OtherStrategy"⟩).1 =
      lookupPairs "echo" c5Factory ∧
    (schemaRegisterAttempt c5Registry "echo" promptOnlySchema).2 =
        some "Schema for model ID 'echo' is already registered" ∧
    (schemaRegisterAttempt c5Registry "echo" promptOnlySchema).1 = c5Registry ∧
    schemaModels (schemaRegisterAttempt c5Registry "echo" promptOnlySchema).1 =
      schemaModels c5Registry ∧
    lookupPairs "echo" (schemaRegisterAttempt c5Registry "echo" promptOnlySchema).1 =
      lookupPairs "echo" c5Registry) :=
  ⟨rfl, rfl,
    c5_duplicate_registration_rejected c5Factory c5Registry "echo"
      ⟨"OtherStrategy"⟩ promptOnlySchema rfl rfl⟩

/-- C8: a model ID with no registered schema makes the multipart gate a
pass-through (it fails open), and the pipeline later answers 404 from
the validation middleware's schema lookup, not from the gate. -/
theorem c8_unregistered_model_gate_passthrough (registry : SchemaMap)
    (factory : FactoryMap) (req : HttpRequest) (modelId : String)
    (run : Json → ProcessContext → Except ThrownError ModelOutput)
    (hs : hasSchema registry modelId = false)
    (hm : req.modelId = some modelId) :
    createDynamicMulterMiddleware registry modelId = MulterGate.passthrough ∧
    (handleInvoke registry factory req run).status = 404 ∧
    (handleInvoke registry factory req run).error =
      some { name := "ApiError",
             message := "No validation schema found for model: " ++ modelId,
             statusCode := 404, path := req.path, method := req.method } ∧
    (handleInvoke registry factory req run).success = none := by
  have hget := getSchemaE_of_not_hasSchema hs
  refine ⟨?_, ?_, ?_, ?_⟩
  · unfold createDynamicMulterMiddleware
    rw [hget]
  all_goals
    unfold handleInvoke
    rw [hm]
    simp [hget, errorHandler, apiNotFound]

/-- C8 witness: the `ghost` model against the empty registry. -/
theorem c8_witness :
    hasSchema ([] : SchemaMap) "ghost" = false ∧
    ghostRequest.modelId = some "ghost" ∧
    (createDynamicMulterMiddleware ([] : SchemaMap) "ghost" =
      MulterGate.passthrough ∧
    (handleInvoke ([] : SchemaMap) echoFactory ghostRequest echoRun).status = 404 ∧
    (handleInvoke ([] : SchemaMap) echoFactory ghostRequest echoRun).error =
      some { name := "ApiError",
             message := "No validation schema found for model: " ++ "ghost",
             statusCode := 404, path := ghostRequest.path,
             method := ghostRequest.method } ∧
    (handleInvoke ([] : SchemaMap) echoFactory ghostRequest echoRun).success = none) :=
  ⟨rfl, rfl,
    c8_unregistered_model_gate_passthrough [] echoFactory ghostRequest "ghost"
      echoRun rfl rfl⟩

/-- C9: for a registered model ID, each `create` call runs the stored
`() => new ModelStrategy()` closure, so two consecutive calls return
two distinct fresh instances, and mutating either one's state leaves
the other's state unchanged. -/
theorem c9_create_returns_fresh_instances (f : FactoryMap) (hp : Heap)
    (modelId : String) (cls : StrategyClass) (v w : Json)
    (hreg : lookupPairs modelId f = some cls) :
    factoryCreate f hp modelId = Except.ok (heapNew hp) ∧
    factoryCreate f (heapNew hp).2 modelId =
      Except.ok (heapNew (heapNew hp).2) ∧
    (heapNew hp).1 ≠ (heapNew (heapNew hp).2).1 ∧
    heapRead (heapWrite (heapNew (heapNew hp).2).2 (heapNew hp).1.addr v)
        (heapNew (heapNew hp).2).1.addr =
      heapRead (heapNew (heapNew hp).2).2 (heapNew (heapNew hp).2).1.addr ∧
    heapRead (heapWrite (heapNew (heapNew hp).2).2 (heapNew (heapNew hp).2).1.addr w)
        (heapNew hp).1.addr =
      heapRead (heapNew (heapNew hp).2).2 (heapNew hp).1.addr := by
  have hb : (hp.next == hp.next + 1) = false := by simp
  have hb' : (hp.next + 1 == hp.next) = false := by simp
  refine ⟨?_, ?_, ?_, ?_, ?_⟩
  · unfold factoryCreate; rw [hreg]
  · unfold factoryCreate; rw [hreg]
  · intro h
    have := congrArg StrategyInstance.addr h
    simp [heapNew] at this
  · simp [heapNew, heapWrite, heapRead, List.find?, hb, hb']
  · simp [heapNew, heapWrite, heapRead, List.find?, hb, hb']

/-- C9 witness: two creations of `echo` from the empty heap. -/
theorem c9_witness :
    lookupPairs "echo" c5Factory = some ⟨"EchoStrategy"⟩ ∧
    (factoryCreate c5Factory emptyHeap "echo" =
      Except.ok (heapNew emptyHeap) ∧
    factoryCreate c5Factory (heapNew emptyHeap).2 "echo" =
      Except.ok (heapNew (heapNew emptyHeap).2) ∧
    (heapNew emptyHeap).1 ≠ (heapNew (heapNew emptyHeap).2).1 ∧
    heapRead (heapWrite (heapNew (heapNew emptyHeap).2).2
        (heapNew emptyHeap).1.addr (Json.str "mutated"))
        (heapNew (heapNew emptyHeap).2).1.addr =
      heapRead (heapNew (heapNew emptyHeap).2).2
        (heapNew (heapNew emptyHeap).2).1.addr ∧
    heapRead (heapWrite (heapNew (heapNew emptyHeap).2).2
        (heapNew (heapNew emptyHeap).2).1.addr (Json.str "other"))
        (heapNew emptyHeap).1.addr =
      heapRead (heapNew (heapNew emptyHeap).2).2 (heapNew emptyHeap).1.addr) :=
  ⟨rfl,
    c9_create_returns_fresh_instances c5Factory emptyHeap "echo"
      ⟨"EchoStrategy"⟩ (Json.str "mutated") (Json.str "other") rfl⟩

/-- C6: a plugin candidate that fails structural validation is settled
as exactly one failure carrying the validator's message (which names
the missing exports) and leaves the registration state untouched; in
the three-candidate run with one broken plugin, the other two are
registered in both maps and exactly one failure is reported. -/
theorem c6_plugin_failure_isolated (st : GatewayState) (dir : String)
    (m : PluginCandidate) (msg : String)
    (hbad : validatePluginModule m dir = Except.error msg) :
    loadOnePlugin st dir m = (st, (dir, some msg)) ∧
    c6Run.1.factory = [("echo", ⟨"EchoStrategy"⟩), ("ocr", ⟨"OcrStrategy"⟩)] ∧
    c6Run.1.registry = [("echo", echoSchema), ("ocr", imageFileSchema)] ∧
    c6Run.2 = [("echo-plugin", none), ("broken-plugin", some brokenPluginMsg),
               ("ocr-plugin", none)] ∧
    (c6Run.2.filter (fun p => p.2.isSome)).length = 1 ∧
    strIncludes brokenPluginMsg "ModelStrategy" = true := by
  refine ⟨?_, rfl, rfl, rfl, rfl, by decide⟩
  unfold loadOnePlugin
  rw [hbad]

/-- C6 witness: the isolation theorem instantiated at the broken
plugin (missing `ModelStrategy`) against the empty state. -/
theorem c6_witness :
    validatePluginModule brokenPlugin "broken-plugin" =
      Except.error brokenPluginMsg ∧
    (loadOnePlugin emptyGateway "broken-plugin" brokenPlugin =
      (emptyGateway, ("broken-plugin", some brokenPluginMsg)) ∧
    c6Run.1.factory = [("echo", ⟨"EchoStrategy"⟩), ("ocr", ⟨"OcrStrategy"⟩)] ∧
    c6Run.1.registry = [("echo", echoSchema), ("ocr", imageFileSchema)] ∧
    c6Run.2 = [("echo-plugin", none), ("broken-plugin", some brokenPluginMsg),
               ("ocr-plugin", none)] ∧
    (c6Run.2.filter (fun p => p.2.isSome)).length = 1 ∧
    strIncludes brokenPluginMsg "ModelStrategy" = true) :=
  ⟨rfl, c6_plugin_failure_isolated emptyGateway "broken-plugin" brokenPlugin
    brokenPluginMsg rfl⟩

/-- One loader step keeps the factory's and the registry's key lists
equal: a validated plugin registers into both maps or into neither
(the registry write can only fail on a key already present or on a
structurally invalid schema, and a validated module rules both out). -/
theorem loadOnePlugin_preserves_keys {st : GatewayState} {dir : String}
    {m : PluginCandidate}
    (h : keysOf st.factory = keysOf st.registry) :
    keysOf (loadOnePlugin st dir m).1.factory =
      keysOf (loadOnePlugin st dir m).1.registry := by
  unfold loadOnePlugin
  split
  · simpa using h
  · rename_i modelId schema clsName hv
    split
    · simpa using h
    · rename_i f' hf
      unfold factoryRegister at hf
      split at hf
      · cases hf
      · rename_i hnot
        cases hf
        have hnotf : hasKey modelId st.factory = false := by
          simpa using hnot
        have hnotr : hasKey modelId st.registry = false := by
          rw [← hasKey_eq_of_keys_eq h modelId]
          exact hnotf
        obtain ⟨hty, htr⟩ := validate_ok_schema_shape hv
        have hreg : schemaRegister st.registry modelId schema =
            Except.ok (st.registry ++ [(modelId, schema)]) := by
          unfold schemaRegister
          rw [hnotr]
          simp [hty, htr]
        rw [hreg]
        simp only [keysOf_append]
        rw [h]

/-- Any loader run preserves equality of the two key lists. -/
theorem loadPlugins_preserves_keys :
    ∀ (cands : List (String × PluginCandidate)) (st : GatewayState),
      keysOf st.factory = keysOf st.registry →
      keysOf (loadPlugins st cands).1.factory =
        keysOf (loadPlugins st cands).1.registry := by
  intro cands
  induction cands with
  | nil => intro st h; simpa [loadPlugins] using h
  | cons c rest ih =>
    intro st h
    cases c with
    | mk dir m =>
      simp only [loadPlugins]
      exact ih _ (loadOnePlugin_preserves_keys h)

/-- C7: starting from the empty factory and registry, any sequence of
plugin-loader registration steps leaves the two maps with identical
model-ID lists, so every identifier registered in the factory has a
schema entry in the registry. -/
theorem c7_factory_registry_paired (cands : List (String × PluginCandidate)) :
    factoryModels (loadPlugins emptyGateway cands).1.factory =
      schemaModels (loadPlugins emptyGateway cands).1.registry :=
  loadPlugins_preserves_keys cands emptyGateway rfl
